import Mathlib

/-!
Verification of the helicopter-game simulation core.

The development shallowly embeds the simulation layer of the game:
rectangles are pygame `Rect`s (integer coordinates, obtained from float
positions by truncation toward zero), all float quantities are modelled
as rationals, and the per-frame mutation of the scene is modelled as a
pure step function.  Fallible frames (a Python `TypeError` escaping the
frame) are modelled with `Except`.

The definitions follow the source:
* `PhysicsComponent` is the force-accumulator physics body defined in
  `main.py` (the one the `Helicopter` entity instantiates; the module
  defines it after `Helicopter`, so at instantiation time it shadows the
  earlier import from `engine/physics.py`, whose variant is a superseded
  prototype).
* `collision_side` / `handle_collision` follow `GameScene.handle_collision`.
* `WeaponComponent.fire` / `WeaponComponent.update` follow
  `engine/weapons.py`.
* `Helicopter.update`, `pad_landing_step`, `scene_projectile_loop` and
  `GameScene.update` follow the per-frame logic of `main.py`.
-/

/-- Truncation of a rational toward zero: how pygame's `Rect` constructor
converts float coordinates to the C `int` fields of a rect. -/
def ratTrunc (q : ℚ) : ℤ := if 0 ≤ q then ⌊q⌋ else ⌈q⌉

/-- A pygame `Rect`: integer position and size. -/
structure PyRect where
  x : ℤ
  y : ℤ
  w : ℤ
  h : ℤ
deriving DecidableEq

/-- `Rect.left` -/
def PyRect.left (r : PyRect) : ℤ := r.x

/-- `Rect.top` -/
def PyRect.top (r : PyRect) : ℤ := r.y

/-- `Rect.right = left + width` -/
def PyRect.right (r : PyRect) : ℤ := r.x + r.w

/-- `Rect.bottom = top + height` -/
def PyRect.bottom (r : PyRect) : ℤ := r.y + r.h

/-- `Rect.centerx = x + w // 2` -/
def PyRect.centerx (r : PyRect) : ℤ := r.x + r.w / 2

/-- pygame `Rect.colliderect`: strict overlap on both axes. -/
def PyRect.colliderect (a b : PyRect) : Bool :=
  decide (a.x < b.right ∧ a.y < b.bottom ∧ b.x < a.right ∧ b.y < a.bottom)

/-- `pygame.Rect(x, y, w, h)` applied to float arguments: each coordinate
is truncated toward zero. -/
def mkRect (x y w h : ℚ) : PyRect := ⟨ratTrunc x, ratTrunc y, ratTrunc w, ratTrunc h⟩

/-! ## PhysicsComponent (`main.py`, lines 206-233) -/

/-- The physics body of the vehicle: velocity, gravity constant and the
pending-force accumulator (`main.py`'s `PhysicsComponent`). -/
structure PhysicsComponent where
  velocity_x : ℚ
  velocity_y : ℚ
  gravity : ℚ
  force_x : ℚ
  force_y : ℚ
deriving DecidableEq

/-- `PhysicsComponent.__init__`: zero velocity and forces, gravity 60. -/
def PhysicsComponent.init : PhysicsComponent := ⟨0, 0, 60, 0, 0⟩

/-- `PhysicsComponent.apply_force`: accumulate into the pending force. -/
def PhysicsComponent.apply_force (p : PhysicsComponent) (fx fy : ℚ) : PhysicsComponent :=
  { p with force_x := p.force_x + fx, force_y := p.force_y + fy }

/-- `max_speed_x = 150` in `PhysicsComponent.update`. -/
def max_speed_x : ℚ := 150

/-- `max_speed_y_up = 180` in `PhysicsComponent.update`. -/
def max_speed_y_up : ℚ := 180

/-- `max_speed_y_down = 100` in `PhysicsComponent.update`. -/
def max_speed_y_down : ℚ := 100

/-- `PhysicsComponent.update`: integrate the pending force into the
velocity, clear the force accumulator, clamp each velocity axis. -/
def PhysicsComponent.update (p : PhysicsComponent) (delta_time : ℚ) : PhysicsComponent :=
  let vx := p.velocity_x + p.force_x * delta_time
  let vy := p.velocity_y + p.force_y * delta_time
  { p with
    velocity_x := min (max vx (-max_speed_x)) max_speed_x,
    velocity_y := min (max vy (-max_speed_y_up)) max_speed_y_down,
    force_x := 0,
    force_y := 0 }

/-- C3: after every call to the physics body's per-step update, the
pending-force accumulator is `(0, 0)` and the velocity is clamped per
axis: `|velocity_x| ≤ max_speed_x` and
`velocity_y ∈ [-max_speed_y_up, max_speed_y_down]`. -/
theorem physics_update_invariant (p : PhysicsComponent) (delta_time : ℚ) :
    (p.update delta_time).force_x = 0 ∧
    (p.update delta_time).force_y = 0 ∧
    |(p.update delta_time).velocity_x| ≤ max_speed_x ∧
    -max_speed_y_up ≤ (p.update delta_time).velocity_y ∧
    (p.update delta_time).velocity_y ≤ max_speed_y_down := by
  refine ⟨rfl, rfl, ?_, ?_, ?_⟩
  · rw [abs_le]
    constructor
    · exact le_min (le_trans (by norm_num [max_speed_x]) (le_max_right _ _))
        (by norm_num [max_speed_x])
    · exact min_le_right _ _
  · exact le_min (le_trans (by norm_num [max_speed_y_up]) (le_max_right _ _))
      (by norm_num [max_speed_y_up, max_speed_y_down])
  · exact min_le_right _ _

/-- C8: `apply_force` only adds the arguments into the pending-force
accumulator; velocity, gravity and all other physics state are
unchanged, so the force has no effect until the next update step. -/
theorem apply_force_only_accumulates (p : PhysicsComponent) (fx fy : ℚ) :
    (p.apply_force fx fy).velocity_x = p.velocity_x ∧
    (p.apply_force fx fy).velocity_y = p.velocity_y ∧
    (p.apply_force fx fy).gravity = p.gravity ∧
    (p.apply_force fx fy).force_x = p.force_x + fx ∧
    (p.apply_force fx fy).force_y = p.force_y + fy :=
  ⟨rfl, rfl, rfl, rfl, rfl⟩

/-! ## Collision classification (`GameScene.handle_collision`) -/

/-- The four sides a wall collision can be classified as. -/
inductive Side where
  | left
  | right
  | top
  | bottom
deriving DecidableEq

/-- Python's `min(pairs, key=lambda x: x[1])`: scan the list keeping the
current best, replacing it only on a strictly smaller key, so the first
of several minima wins. -/
def minOverlap (best : Side × ℤ) : List (Side × ℤ) → Side × ℤ
  | [] => best
  | p :: ps => minOverlap (if p.2 < best.2 then p else best) ps

/-- The `(collision_side, min_overlap)` pair of `GameScene.handle_collision`:
the minimum of the four directional overlaps, ties broken in the order
left, right, top, bottom. -/
def collision_side (collision_rect wall_rect : PyRect) : Side × ℤ :=
  minOverlap (Side.left, collision_rect.right - wall_rect.left)
    [(Side.right, wall_rect.right - collision_rect.left),
     (Side.top, collision_rect.bottom - wall_rect.top),
     (Side.bottom, wall_rect.bottom - collision_rect.top)]

/-- Result of `GameScene.handle_collision`: either the helicopter is
destroyed (game over) or it lands, with both velocity components zeroed
and its `y` snapped to the given value. -/
inductive CollisionOutcome where
  | destroyed
  | landedOn (new_y : ℚ)
deriving DecidableEq

/-- `GameScene.handle_collision`: classify the collision side; the contact
is a safe landing only when the side is `top` and the velocity is slow
and downward, otherwise the helicopter is destroyed. -/
def handle_collision (wall_rect collision_rect : PyRect) (velocity_x velocity_y : ℚ) :
    CollisionOutcome :=
  let side := (collision_side collision_rect wall_rect).1
  if side = Side.top ∧ 0 < velocity_y ∧ velocity_y < 100 ∧ |velocity_x| < 50 then
    CollisionOutcome.landedOn ((wall_rect.top : ℚ) - (collision_rect.h : ℚ) / 2)
  else
    CollisionOutcome.destroyed

/-- C1: when the vehicle rectangle intersects a wall, the collision side is
the minimum of the four directional overlaps (`vehicle.right - wall.left`,
`wall.right - vehicle.left`, `vehicle.bottom - wall.top`,
`wall.bottom - vehicle.top`) with ties broken in the order left, right,
top, bottom; and whenever the resulting side is not `top`, the outcome of
`handle_collision` is `destroyed`, never a landing. -/
theorem collision_side_min_overlap (collision_rect wall_rect : PyRect)
    (velocity_x velocity_y : ℚ)
    (hint : collision_rect.colliderect wall_rect = true) :
    ((collision_side collision_rect wall_rect).2 =
      min (min (min (collision_rect.right - wall_rect.left)
        (wall_rect.right - collision_rect.left))
        (collision_rect.bottom - wall_rect.top))
        (wall_rect.bottom - collision_rect.top)) ∧
    ((collision_side collision_rect wall_rect).1 = Side.left ↔
      collision_rect.right - wall_rect.left ≤ wall_rect.right - collision_rect.left ∧
      collision_rect.right - wall_rect.left ≤ collision_rect.bottom - wall_rect.top ∧
      collision_rect.right - wall_rect.left ≤ wall_rect.bottom - collision_rect.top) ∧
    ((collision_side collision_rect wall_rect).1 = Side.right ↔
      wall_rect.right - collision_rect.left < collision_rect.right - wall_rect.left ∧
      wall_rect.right - collision_rect.left ≤ collision_rect.bottom - wall_rect.top ∧
      wall_rect.right - collision_rect.left ≤ wall_rect.bottom - collision_rect.top) ∧
    ((collision_side collision_rect wall_rect).1 = Side.top ↔
      collision_rect.bottom - wall_rect.top < collision_rect.right - wall_rect.left ∧
      collision_rect.bottom - wall_rect.top < wall_rect.right - collision_rect.left ∧
      collision_rect.bottom - wall_rect.top ≤ wall_rect.bottom - collision_rect.top) ∧
    ((collision_side collision_rect wall_rect).1 = Side.bottom ↔
      wall_rect.bottom - collision_rect.top < collision_rect.right - wall_rect.left ∧
      wall_rect.bottom - collision_rect.top < wall_rect.right - collision_rect.left ∧
      wall_rect.bottom - collision_rect.top < collision_rect.bottom - wall_rect.top) ∧
    ((collision_side collision_rect wall_rect).1 ≠ Side.top →
      handle_collision wall_rect collision_rect velocity_x velocity_y =
        CollisionOutcome.destroyed) := by
  have hlast : (collision_side collision_rect wall_rect).1 ≠ Side.top →
      handle_collision wall_rect collision_rect velocity_x velocity_y =
        CollisionOutcome.destroyed := by
    intro hside
    unfold handle_collision
    rw [if_neg]
    intro hcon
    exact hside hcon.1
  refine ⟨?_, ?_, ?_, ?_, ?_, hlast⟩ <;>
    (simp only [collision_side, minOverlap]; split_ifs) <;> simp_all <;> omega

/-- Witness for C1: a concrete left-side overlap (left overlap strictly
smallest) leads to `destroyed`. -/
theorem collision_side_min_overlap_witness :
    handle_collision ⟨8, 0, 10, 10⟩ ⟨0, 0, 10, 10⟩ 0 60 = CollisionOutcome.destroyed :=
  (collision_side_min_overlap ⟨0, 0, 10, 10⟩ ⟨8, 0, 10, 10⟩ 0 60
    (by decide)).2.2.2.2.2 (by decide)

/-! ## Projectiles and walls (`engine/weapons.py`, `engine/world.py`) -/

/-- A projectile (`engine/weapons.py`): position, velocity, radius 3,
damage 10, lifetime 2 seconds, and the time it has been alive. -/
structure Projectile where
  x : ℚ
  y : ℚ
  velocity_x : ℚ
  velocity_y : ℚ
  radius : ℚ
  damage : ℚ
  lifetime : ℚ
  time_alive : ℚ
deriving DecidableEq

/-- `Projectile.__init__`. -/
def Projectile.init (x y velocity_x velocity_y : ℚ) : Projectile :=
  ⟨x, y, velocity_x, velocity_y, 3, 10, 2, 0⟩

/-- The mutation performed by `Projectile.update`: move by
`velocity * delta_time` and age by `delta_time` (the Python method
returns `time_alive < lifetime` over the new values). -/
def Projectile.step (p : Projectile) (delta_time : ℚ) : Projectile :=
  { p with
    x := p.x + p.velocity_x * delta_time,
    y := p.y + p.velocity_y * delta_time,
    time_alive := p.time_alive + delta_time }

/-- `Projectile.get_rect`. -/
def Projectile.get_rect (p : Projectile) : PyRect :=
  mkRect (p.x - p.radius) (p.y - p.radius) (p.radius * 2) (p.radius * 2)

/-- A wall (`engine/world.py`): center position, size, destructibility
and hit points.  `health` is only ever read or written for destructible
walls (`take_damage` guards on `destructible`), so the infinite health
of indestructible walls needs no representation. -/
structure Wall where
  x : ℚ
  y : ℚ
  width : ℚ
  height : ℚ
  destructible : Bool
  health : ℚ
deriving DecidableEq

/-- `Wall.get_rect`. -/
def Wall.get_rect (w : Wall) : PyRect :=
  mkRect (w.x - w.width / 2) (w.y - w.height / 2) w.width w.height

/-- `Wall.take_damage`: subtract from health when destructible; the
returned flag says whether the wall is destroyed (health ≤ 0). -/
def Wall.take_damage (w : Wall) (amount : ℚ) : Wall × Bool :=
  if w.destructible then
    ({ w with health := w.health - amount }, decide (w.health - amount ≤ 0))
  else
    (w, false)

/-- The weapon system (`engine/weapons.py`): live projectiles, fire
cooldown (0.2 s) and the time since the last shot. -/
structure WeaponComponent where
  projectiles : List Projectile
  cooldown : ℚ
  time_since_last_shot : ℚ
deriving DecidableEq

/-- `WeaponComponent.__init__`: no projectiles, cooldown 0.2, timer
starts at the cooldown so the weapon is ready to fire. -/
def WeaponComponent.init : WeaponComponent := ⟨[], 1/5, 1/5⟩

/-- `WeaponComponent.fire(x, y, velocity_x, velocity_y)`: no-op while the
cooldown timer has not refilled; otherwise append one projectile, spawned
offset 20 units in front of the muzzle, and reset the timer to zero. -/
def WeaponComponent.fire (wc : WeaponComponent) (x y velocity_x velocity_y : ℚ) :
    WeaponComponent :=
  if wc.cooldown ≤ wc.time_since_last_shot then
    let offset : ℚ := if 0 < velocity_x then 20 else -20
    { wc with
      projectiles := wc.projectiles ++ [Projectile.init (x + offset) y velocity_x velocity_y],
      time_since_last_shot := 0 }
  else
    wc

/-- The wall scan in `WeaponComponent.update`: walk the wall list, and at
the first wall whose rect collides with `r`, damage it by 10 when it is
destructible (this loop never removes walls).  Returns the updated list
and whether a hit happened. -/
def damage_first_hit (r : PyRect) : List Wall → List Wall × Bool
  | [] => ([], false)
  | w :: ws =>
    if w.get_rect.colliderect r then
      (if w.destructible then { w with health := w.health - 10 } :: ws else w :: ws, true)
    else
      let res := damage_first_hit r ws
      (w :: res.1, res.2)

/-- The body of the projectile loop in `WeaponComponent.update` for one
projectile: first `projectile.update` moves and ages it and reports
expiry — an expired projectile is removed at once (`continue`), before
any wall check; only a surviving projectile is tested against the walls,
and is removed on its first hit. -/
def update_projectile (delta_time : ℚ) (walls : List Wall) (p : Projectile) :
    Option Projectile × List Wall :=
  let p1 := p.step delta_time
  if p1.time_alive < p1.lifetime then
    let res := damage_first_hit p1.get_rect walls
    if res.2 then (none, res.1) else (some p1, res.1)
  else
    (none, walls)

/-- The projectile loop of `WeaponComponent.update` over the whole list. -/
def weapon_update_loop (delta_time : ℚ) : List Wall → List Projectile →
    List Projectile × List Wall
  | walls, [] => ([], walls)
  | walls, p :: ps =>
    match update_projectile delta_time walls p with
    | (none, walls1) => weapon_update_loop delta_time walls1 ps
    | (some p1, walls1) =>
      let rest := weapon_update_loop delta_time walls1 ps
      (p1 :: rest.1, rest.2)

/-- `WeaponComponent.update`: advance the cooldown timer, then run the
projectile loop against the scene's walls. -/
def WeaponComponent.update (wc : WeaponComponent) (delta_time : ℚ) (walls : List Wall) :
    WeaponComponent × List Wall :=
  let res := weapon_update_loop delta_time walls wc.projectiles
  ({ wc with
      time_since_last_shot := wc.time_since_last_shot + delta_time,
      projectiles := res.1 },
    res.2)

/-- The projectile of the C4 counterexample: alive for 1.9 s of its 2 s
lifetime, moving right at 100 units/s. -/
def c4Projectile : Projectile := ⟨0, 10, 100, 0, 3, 10, 2, 19/10⟩

/-- The wall of the C4 counterexample: destructible, full health, placed
where the projectile's next step lands. -/
def c4Wall : Wall := ⟨20, 10, 10, 10, true, 100⟩

/-- Counterexample to C4: with `delta_time = 0.2` the projectile both
expires (1.9 + 0.2 ≥ 2) and, at its stepped position, collides with the
destructible wall; the claim says this frame is resolved as an impact
(wall damaged), but `WeaponComponent.update` checks expiry first: the
projectile is removed and the wall keeps its full 100 health. -/
theorem update_projectile_expiry_beats_impact :
    c4Projectile.lifetime ≤ c4Projectile.time_alive + 1/5 ∧
    c4Wall.get_rect.colliderect (c4Projectile.step (1/5)).get_rect = true ∧
    update_projectile (1/5) [c4Wall] c4Projectile = (none, [c4Wall]) := by
  refine ⟨by norm_num [c4Projectile], ?_, ?_⟩
  · norm_num [c4Wall, c4Projectile, Wall.get_rect, Projectile.get_rect, Projectile.step,
      mkRect, ratTrunc, PyRect.colliderect, PyRect.right, PyRect.bottom]
  · norm_num [update_projectile, Projectile.step, c4Projectile]

/-- C4 (amended): a projectile that reaches the end of its lifetime in a
weapon-system update step is resolved as expiry regardless of any wall
overlap: the expiry check runs first, the projectile is removed, and the
walls are untouched. -/
theorem update_projectile_expiry_first (delta_time : ℚ) (walls : List Wall)
    (p : Projectile) (hexp : p.lifetime ≤ p.time_alive + delta_time) :
    update_projectile delta_time walls p = (none, walls) := by
  unfold update_projectile
  rw [if_neg]
  simp only [Projectile.step]
  push_neg
  exact hexp

/-- Witness for C4: the amended theorem applied to the concrete expiring
projectile and wall. -/
theorem update_projectile_expiry_first_witness :
    update_projectile (1/5) [c4Wall] c4Projectile = (none, [c4Wall]) :=
  update_projectile_expiry_first (1/5) [c4Wall] c4Projectile
    (by norm_num [c4Projectile])

/-- The weapon states of the C5 firing scenario: fire, wait 0.05 s, fire
again (suppressed), wait another 0.15 s, fire again (succeeds). -/
def c5w1 : WeaponComponent := WeaponComponent.init.fire 100 100 100 0

/-- Scenario state after advancing 0.05 s. -/
def c5w2 : WeaponComponent := (c5w1.update (1/20) []).1

/-- Scenario state after the second fire call (0.05 s after the first). -/
def c5w3 : WeaponComponent := c5w2.fire 100 100 100 0

/-- Scenario state after advancing a further 0.15 s (0.2 s total). -/
def c5w4 : WeaponComponent := (c5w3.update (3/20) []).1

/-- Scenario state after the third fire call. -/
def c5w5 : WeaponComponent := c5w4.fire 100 100 100 0

/-- C5: `fire` is a silent no-op while `time_since_last_shot < cooldown`,
and otherwise appends exactly one projectile and resets the timer to
zero; in the concrete scenario with cooldown 0.2 s, two fire calls
0.05 s apart spawn exactly one projectile and a third call after 0.2 s
total spawns a second. -/
theorem fire_cooldown_gate (wc : WeaponComponent) (x y velocity_x velocity_y : ℚ) :
    (wc.time_since_last_shot < wc.cooldown → wc.fire x y velocity_x velocity_y = wc) ∧
    (wc.cooldown ≤ wc.time_since_last_shot →
      (wc.fire x y velocity_x velocity_y).projectiles.length = wc.projectiles.length + 1 ∧
      (wc.fire x y velocity_x velocity_y).time_since_last_shot = 0) ∧
    (c5w1.projectiles.length = 1 ∧ c5w3.projectiles.length = 1 ∧
      c5w5.projectiles.length = 2) := by
  refine ⟨?_, ?_, ?_, ?_, ?_⟩
  · intro hlt
    unfold WeaponComponent.fire
    rw [if_neg (by exact not_le.mpr hlt)]
  · intro hge
    constructor
    · unfold WeaponComponent.fire
      rw [if_pos hge]
      simp
    · unfold WeaponComponent.fire
      rw [if_pos hge]
  · norm_num [c5w1, WeaponComponent.init, WeaponComponent.fire]
  · norm_num [c5w3, c5w2, c5w1, WeaponComponent.init, WeaponComponent.fire,
      WeaponComponent.update, weapon_update_loop, update_projectile, Projectile.step,
      Projectile.init, damage_first_hit]
  · norm_num [c5w5, c5w4, c5w3, c5w2, c5w1, WeaponComponent.init, WeaponComponent.fire,
      WeaponComponent.update, weapon_update_loop, update_projectile, Projectile.step,
      Projectile.init, damage_first_hit]

/-- Witness for C5: a weapon mid-cooldown ignores `fire`, and a ready
weapon spawns exactly one projectile and resets its timer. -/
theorem fire_cooldown_gate_witness :
    (WeaponComponent.fire ⟨[], 1/5, 1/10⟩ 0 0 5 0 = ⟨[], 1/5, 1/10⟩) ∧
    (WeaponComponent.fire ⟨[], 1/5, 1/5⟩ 0 0 5 0).projectiles.length = ([] : List Projectile).length + 1 :=
  ⟨(fire_cooldown_gate ⟨[], 1/5, 1/10⟩ 0 0 5 0).1 (by norm_num),
   ((fire_cooldown_gate ⟨[], 1/5, 1/5⟩ 0 0 5 0).2.1 (by norm_num)).1⟩

/-! ## The vehicle state machine and per-frame scene update (`main.py`) -/

/-- The helicopter states (`self.state` strings in `main.py`). -/
inductive HeliState where
  | landed
  | taking_off
  | flying
deriving DecidableEq

/-- The per-frame boolean input intents consumed by `Helicopter.update`
(`K_UP`, `K_DOWN`, `K_LEFT`, `K_RIGHT`, `K_SPACE`). -/
structure InputComponent where
  up : Bool
  down : Bool
  left : Bool
  right : Bool
  space : Bool
deriving DecidableEq

/-- The helicopter entity (`main.py`): position, physics body, state
machine tag, spawn height, facing flag and weapon system. -/
structure Helicopter where
  x : ℚ
  y : ℚ
  physics : PhysicsComponent
  state : HeliState
  initial_y : ℚ
  flip_x : Bool
  weapon : WeaponComponent
deriving DecidableEq

/-- `Helicopter.get_collision_rect`: `Rect(x - 15, y - 10, 30, 20)`. -/
def Helicopter.get_collision_rect (h : Helicopter) : PyRect :=
  mkRect (h.x - 15) (h.y - 10) 30 20

/-- `base_thrust = 400` in `Helicopter.update`. -/
def base_thrust : ℚ := 400

/-- The tail of `Helicopter.update` shared by all non-returning state
branches: horizontal thrust (reduced while landed) and facing update,
then — unless landed — the physics step followed by exactly one position
integration. -/
def heli_move_and_integrate (inp : InputComponent) (delta_time : ℚ)
    (h : Helicopter) (st : HeliState) : Helicopter :=
  let horizontal_thrust := base_thrust * (if st = HeliState.landed then 1/10 else 4/10)
  let ph1 := if inp.left then h.physics.apply_force (-horizontal_thrust) 0 else h.physics
  let flip1 := if inp.left then true else h.flip_x
  let ph2 := if inp.right then ph1.apply_force horizontal_thrust 0 else ph1
  let flip2 := if inp.right then false else flip1
  if st = HeliState.landed then
    { h with physics := ph2, state := st, flip_x := flip2 }
  else
    let ph3 := ph2.update delta_time
    { h with
      physics := ph3,
      state := st,
      flip_x := flip2,
      x := h.x + ph3.velocity_x * delta_time,
      y := h.y + ph3.velocity_y * delta_time }

/-- The Python `TypeError` raised by the fire branch of
`Helicopter.update`: it calls `self.weapon.fire(direction)` with one
argument, but `WeaponComponent.fire` requires four
(`x, y, velocity_x, velocity_y`), so the call raises before mutating any
state. -/
def fireTypeError : String :=
  "fire() missing 3 required positional arguments"

/-- `Helicopter.update`: the state machine.  Landed zeroes the velocity
and starts a takeoff on the up intent (returning early); taking off
re-asserts the upward kick velocity and becomes flying 50 units above
the spawn height; flying applies gravity and thrust forces and — on the
fire intent — raises the `TypeError` modelled by `fireTypeError`. -/
def Helicopter.update (h : Helicopter) (inp : InputComponent) (delta_time : ℚ) :
    Except String Helicopter :=
  match h.state with
  | HeliState.landed =>
    let ph0 := { h.physics with velocity_x := 0, velocity_y := 0 }
    if inp.up then
      Except.ok { h with physics := { ph0 with velocity_y := -25 }, state := HeliState.taking_off }
    else
      Except.ok (heli_move_and_integrate inp delta_time { h with physics := ph0 }
        HeliState.landed)
  | HeliState.taking_off =>
    let ph0 := { h.physics with velocity_y := -25 }
    let st := if h.y < h.initial_y - 50 then HeliState.flying else HeliState.taking_off
    Except.ok (heli_move_and_integrate inp delta_time { h with physics := ph0 } st)
  | HeliState.flying =>
    let ph1 := h.physics.apply_force 0 h.physics.gravity
    let ph2 := if inp.up then ph1.apply_force 0 (-h.physics.gravity * 3) else ph1
    let ph3 := if inp.down then ph2.apply_force 0 (base_thrust * (6/10)) else ph2
    if inp.space then
      Except.error fireTypeError
    else
      Except.ok (heli_move_and_integrate inp delta_time { h with physics := ph3 }
        HeliState.flying)

/-- A landing pad (`engine/world.py`): center position and size. -/
structure LandingPad where
  x : ℚ
  y : ℚ
  width : ℚ
  height : ℚ
deriving DecidableEq

/-- `LandingPad.get_rect`. -/
def LandingPad.get_rect (p : LandingPad) : PyRect :=
  mkRect (p.x - p.width / 2) (p.y - p.height / 2) p.width p.height

/-- The landing-pad test of the loop in `GameScene.update`: the
helicopter's horizontal center is within the pad span, its bottom edge is
within 10 units of the pad top, vertical velocity is downward and below
100, and horizontal speed is below 50. -/
def pad_qualifies (heli_rect : PyRect) (velocity_x velocity_y : ℚ) (pad : LandingPad) :
    Bool :=
  decide (pad.get_rect.left ≤ heli_rect.centerx ∧ heli_rect.centerx ≤ pad.get_rect.right ∧
    |heli_rect.bottom - pad.get_rect.top| < 10 ∧
    0 < velocity_y ∧ velocity_y < 100 ∧ |velocity_x| < 50)

/-- Following the spec's words for claim C2 (for comparison with
`pad_qualifies`, which is taken from the code): the spec requires the
vehicle to be horizontally **contained** within the pad's span, not just
its center. -/
def pad_qualifies_spec (heli_rect : PyRect) (velocity_x velocity_y : ℚ) (pad : LandingPad) :
    Bool :=
  decide (pad.get_rect.left ≤ heli_rect.left ∧ heli_rect.right ≤ pad.get_rect.right ∧
    |heli_rect.bottom - pad.get_rect.top| < 10 ∧
    0 < velocity_y ∧ velocity_y < 100 ∧ |velocity_x| < 50)

/-- The landing-pad loop of `GameScene.update` (run only in the flying
state): the first qualifying pad receives the helicopter — state becomes
landed, both velocity components are zeroed, and `y` snaps the collision
rect onto the pad top. -/
def pad_landing_step (pads : List LandingPad) (h : Helicopter) : Helicopter :=
  if h.state = HeliState.flying then
    let heli_rect := h.get_collision_rect
    match pads.find? (pad_qualifies heli_rect h.physics.velocity_x h.physics.velocity_y) with
    | some pad =>
      { h with
        state := HeliState.landed,
        physics := { h.physics with velocity_x := 0, velocity_y := 0 },
        y := (pad.get_rect.top : ℚ) - (heli_rect.h : ℚ) / 2 }
    | none => h
  else h

/-- `World.check_collision`: the first wall whose rect collides with the
given rect. -/
def world_check_collision (walls : List Wall) (rect : PyRect) : Option Wall :=
  walls.find? (fun w => w.get_rect.colliderect rect)

/-- The wall scan of the projectile loop in `GameScene.update`: find the
first wall colliding with the projectile rect; `take_damage` it and drop
it from the list when destroyed.  Returns the updated walls and whether
a hit happened. -/
def scene_proj_hit (damage : ℚ) (rect : PyRect) : List Wall → List Wall × Bool
  | [] => ([], false)
  | w :: ws =>
    if w.get_rect.colliderect rect then
      if w.destructible then
        let dw := { w with health := w.health - damage }
        (if dw.health ≤ 0 then ws else dw :: ws, true)
      else
        (w :: ws, true)
    else
      let res := scene_proj_hit damage rect ws
      (w :: res.1, res.2)

/-- The projectile loop of `GameScene.update`: projectiles are neither
moved nor aged here; each is removed exactly when a wall collides with
its rect, damaging that wall. -/
def scene_projectile_loop : List Wall → List Projectile → List Projectile × List Wall
  | walls, [] => ([], walls)
  | walls, p :: ps =>
    let res := scene_proj_hit p.damage p.get_rect walls
    let rest := scene_projectile_loop res.1 ps
    (if res.2 then rest.1 else p :: rest.1, rest.2)

/-- The game scene (`GameScene`): the optional live helicopter, the
world's walls and landing pads, and the game-over flag. -/
structure GameScene where
  helicopter : Option Helicopter
  walls : List Wall
  landing_pads : List LandingPad
  game_over : Bool
deriving DecidableEq

/-- `GameScene.update`: a frozen (game-over) or helicopter-less scene is
unchanged; otherwise run `Helicopter.update` (which can raise), the
landing-pad loop, the wall-collision check (destroying the helicopter or
landing it on the wall top), and finally the projectile loop. -/
def GameScene.update (s : GameScene) (inp : InputComponent) (delta_time : ℚ) :
    Except String GameScene :=
  if s.game_over then Except.ok s
  else
    match s.helicopter with
    | none => Except.ok s
    | some h0 =>
      match h0.update inp delta_time with
      | Except.error e => Except.error e
      | Except.ok h1 =>
        let h2 := pad_landing_step s.landing_pads h1
        let collision_rect := h2.get_collision_rect
        match world_check_collision s.walls collision_rect with
        | some wall =>
          match handle_collision wall.get_rect collision_rect
              h2.physics.velocity_x h2.physics.velocity_y with
          | CollisionOutcome.destroyed =>
            Except.ok { s with game_over := true, helicopter := none }
          | CollisionOutcome.landedOn new_y =>
            let h3 := { h2 with
              state := HeliState.landed,
              physics := { h2.physics with velocity_x := 0, velocity_y := 0 },
              y := new_y }
            let res := scene_projectile_loop s.walls h3.weapon.projectiles
            Except.ok { s with
              helicopter := some { h3 with weapon := { h3.weapon with projectiles := res.1 } },
              walls := res.2 }
        | none =>
          let res := scene_projectile_loop s.walls h2.weapon.projectiles
          Except.ok { s with
            helicopter := some { h2 with weapon := { h2.weapon with projectiles := res.1 } },
            walls := res.2 }

/-- The state of the helicopter in a scene, if one is alive. -/
def scene_heli_state (s : GameScene) : Option HeliState :=
  s.helicopter.map Helicopter.state

/-- The helicopter of the C2 counterexample: flying at (100, 95),
descending at 50 units/s. -/
def c2Heli : Helicopter :=
  { x := 100, y := 95, physics := ⟨0, 50, 60, 0, 0⟩, state := HeliState.flying,
    initial_y := 200, flip_x := false, weapon := WeaponComponent.init }

/-- First pad of the C2 counterexample: narrow, so the helicopter's
center is over it but the helicopter is not horizontally contained. -/
def c2PadA : LandingPad := ⟨100, 115, 20, 10⟩

/-- Second pad of the C2 counterexample: wide enough to horizontally
contain the helicopter, as the spec's qualification demands. -/
def c2PadB : LandingPad := ⟨100, 117, 40, 10⟩

/-- Counterexample to C2: the only pad qualifying under the spec's
conditions (horizontal containment) is `c2PadB`, yet the code lands on
`c2PadA` — whose test needs only the horizontal center — and snaps `y`
to 100 instead of onto `c2PadB`'s surface at 102. -/
theorem pad_landing_not_spec_first_pad :
    c2Heli.state = HeliState.flying ∧
    pad_qualifies_spec c2Heli.get_collision_rect c2Heli.physics.velocity_x
      c2Heli.physics.velocity_y c2PadB = true ∧
    pad_qualifies_spec c2Heli.get_collision_rect c2Heli.physics.velocity_x
      c2Heli.physics.velocity_y c2PadA = false ∧
    (pad_landing_step [c2PadA, c2PadB] c2Heli).y = 100 ∧
    (c2PadB.get_rect.top : ℚ) - (c2Heli.get_collision_rect.h : ℚ) / 2 = 102 := by
  have hrect : c2Heli.get_collision_rect = ⟨85, 85, 30, 20⟩ := by
    norm_num [Helicopter.get_collision_rect, c2Heli, mkRect, ratTrunc]
  have hrectA : c2PadA.get_rect = ⟨90, 110, 20, 10⟩ := by
    norm_num [LandingPad.get_rect, c2PadA, mkRect, ratTrunc]
  have hrectB : c2PadB.get_rect = ⟨80, 112, 40, 10⟩ := by
    norm_num [LandingPad.get_rect, c2PadB, mkRect, ratTrunc]
  have hA : pad_qualifies ⟨85, 85, 30, 20⟩ c2Heli.physics.velocity_x
      c2Heli.physics.velocity_y c2PadA = true := by
    simp only [pad_qualifies, hrectA]
    norm_num [PyRect.left, PyRect.right, PyRect.top, PyRect.bottom, PyRect.centerx, c2Heli]
  have hfly : c2Heli.state = HeliState.flying := rfl
  refine ⟨hfly, ?_, ?_, ?_, ?_⟩
  · simp only [pad_qualifies_spec, hrect, hrectB]
    norm_num [PyRect.left, PyRect.right, PyRect.top, PyRect.bottom, c2Heli]
  · simp only [pad_qualifies_spec, hrect, hrectA]
    norm_num [PyRect.left, PyRect.right, PyRect.top, PyRect.bottom, c2Heli]
  · rw [pad_landing_step, if_pos hfly]
    simp only [hrect]
    simp only [List.find?_cons_of_pos _ hA, hrectA]
    norm_num [PyRect.top]
  · rw [hrectB, hrect]
    norm_num [PyRect.top]

/-- C2 (amended): in the flying state, when some pad passes the code's
qualification — horizontal **center** within the pad span, bottom edge
within 10 units of the pad top, downward vertical velocity below 100 and
horizontal speed below 50 — the first such pad in the list wins: the
helicopter is snapped onto that pad's surface, both velocity components
are set to exactly zero, and the state becomes landed. -/
theorem pad_landing_first_qualifying_pad (pads : List LandingPad) (h : Helicopter)
    (pad : LandingPad) (hfly : h.state = HeliState.flying)
    (hfind : pads.find? (pad_qualifies h.get_collision_rect h.physics.velocity_x
      h.physics.velocity_y) = some pad) :
    pad_qualifies h.get_collision_rect h.physics.velocity_x h.physics.velocity_y pad
      = true ∧
    (∃ before after, pads = before ++ pad :: after ∧
      ∀ q ∈ before, pad_qualifies h.get_collision_rect h.physics.velocity_x
        h.physics.velocity_y q = false) ∧
    pad_landing_step pads h =
      { h with
        state := HeliState.landed,
        physics := { h.physics with velocity_x := 0, velocity_y := 0 },
        y := (pad.get_rect.top : ℚ) - (h.get_collision_rect.h : ℚ) / 2 } := by
  obtain ⟨hq, before, after, heq, hneg⟩ := List.find?_eq_some.mp hfind
  refine ⟨hq, ⟨before, after, heq, ?_⟩, ?_⟩
  · intro q hqmem
    have := hneg q hqmem
    simpa using this
  · rw [pad_landing_step, if_pos hfly]
    simp only [hfind]

/-- Witness for C2: the amended theorem applied to the concrete flying
helicopter over the single (qualifying) narrow pad. -/
theorem pad_landing_first_qualifying_pad_witness :
    pad_landing_step [c2PadA] c2Heli =
      { c2Heli with
        state := HeliState.landed,
        physics := { c2Heli.physics with velocity_x := 0, velocity_y := 0 },
        y := (c2PadA.get_rect.top : ℚ) - (c2Heli.get_collision_rect.h : ℚ) / 2 } :=
  (pad_landing_first_qualifying_pad [c2PadA] c2Heli c2PadA rfl
    (by
      have hrect : c2Heli.get_collision_rect = ⟨85, 85, 30, 20⟩ := by
        norm_num [Helicopter.get_collision_rect, c2Heli, mkRect, ratTrunc]
      have hrectA : c2PadA.get_rect = ⟨90, 110, 20, 10⟩ := by
        norm_num [LandingPad.get_rect, c2PadA, mkRect, ratTrunc]
      have hA : pad_qualifies c2Heli.get_collision_rect c2Heli.physics.velocity_x
          c2Heli.physics.velocity_y c2PadA = true := by
        simp only [pad_qualifies, hrect, hrectA]
        norm_num [PyRect.left, PyRect.right, PyRect.top, PyRect.bottom, PyRect.centerx,
          c2Heli]
      exact List.find?_cons_of_pos _ hA)).2.2

/-- C9: the frame is NOT exception-free — firing while flying raises.
`Helicopter.update` calls `self.weapon.fire(direction)` with one
argument where `WeaponComponent.fire` requires four, so any frame in
which the helicopter is flying and the fire intent is pressed raises the
`TypeError` modelled by `fireTypeError` instead of returning a scene. -/
theorem scene_update_fire_raises (s : GameScene) (inp : InputComponent) (delta_time : ℚ)
    (h : Helicopter) (hgo : s.game_over = false) (hh : s.helicopter = some h)
    (hst : h.state = HeliState.flying) (hsp : inp.space = true) :
    s.update inp delta_time = Except.error fireTypeError := by
  rw [GameScene.update, if_neg (by rw [hgo]; exact Bool.false_ne_true), hh]
  dsimp only
  rw [Helicopter.update.eq_def, hst]
  dsimp only
  rw [hsp]
  rfl

/-- The helicopter of the C9 witness: flying with default physics. -/
def c9Heli : Helicopter :=
  ⟨0, 0, PhysicsComponent.init, HeliState.flying, 0, false, WeaponComponent.init⟩

/-- The scene of the C9 witness. -/
def c9Scene : GameScene :=
  { helicopter := some c9Heli, walls := [], landing_pads := [], game_over := false }

/-- The input of the C9 witness: only the fire intent pressed. -/
def c9Input : InputComponent := ⟨false, false, false, false, true⟩

/-- Witness for C9: the concrete flying scene with the fire intent
pressed raises the modelled `TypeError`. -/
theorem scene_update_fire_raises_witness :
    c9Scene.update c9Input 1 = Except.error fireTypeError :=
  scene_update_fire_raises c9Scene c9Input 1 c9Heli rfl rfl rfl rfl

/-- The shared tail of `Helicopter.update` never changes the weapon. -/
theorem heli_move_and_integrate_weapon (inp : InputComponent) (delta_time : ℚ)
    (h : Helicopter) (st : HeliState) :
    (heli_move_and_integrate inp delta_time h st).weapon = h.weapon := by
  unfold heli_move_and_integrate
  split_ifs <;> rfl

/-- The shared tail of `Helicopter.update` ends in the state it is given. -/
theorem heli_move_and_integrate_state (inp : InputComponent) (delta_time : ℚ)
    (h : Helicopter) (st : HeliState) :
    (heli_move_and_integrate inp delta_time h st).state = st := by
  unfold heli_move_and_integrate
  split_ifs <;> rfl

/-- A successful `Helicopter.update` never changes the weapon (the only
branch touching it — fire — raises instead). -/
theorem helicopter_update_ok_weapon (h h1 : Helicopter) (inp : InputComponent)
    (delta_time : ℚ) (hok : h.update inp delta_time = Except.ok h1) :
    h1.weapon = h.weapon := by
  rw [Helicopter.update.eq_def] at hok
  cases hstate : h.state <;> rw [hstate] at hok <;> dsimp only at hok
  · cases hup : inp.up
    · simp only [hup, Bool.false_eq_true, if_false, Except.ok.injEq] at hok
      rw [← hok, heli_move_and_integrate_weapon]
    · simp only [hup, if_true, Except.ok.injEq] at hok
      rw [← hok]
  · simp only [Except.ok.injEq] at hok
    rw [← hok, heli_move_and_integrate_weapon]
  · cases hsp : inp.space
    · simp only [hsp, Bool.false_eq_true, if_false, Except.ok.injEq] at hok
      rw [← hok, heli_move_and_integrate_weapon]
    · simp only [hsp, if_true] at hok
      exact Except.noConfusion hok

/-- A successful `Helicopter.update` enters `taking_off` only from
`landed` (or stays in it from `taking_off`). -/
theorem helicopter_update_taking_off_source (h h1 : Helicopter) (inp : InputComponent)
    (delta_time : ℚ) (hok : h.update inp delta_time = Except.ok h1)
    (ht : h1.state = HeliState.taking_off) :
    h.state = HeliState.landed ∨ h.state = HeliState.taking_off := by
  cases hstate : h.state
  · exact Or.inl rfl
  · exact Or.inr rfl
  · exfalso
    rw [Helicopter.update.eq_def, hstate] at hok
    dsimp only at hok
    cases hsp : inp.space
    · simp only [hsp, Bool.false_eq_true, if_false, Except.ok.injEq] at hok
      rw [← hok, heli_move_and_integrate_state] at ht
      exact HeliState.noConfusion ht
    · simp only [hsp, if_true] at hok
      exact Except.noConfusion hok

/-- The landing-pad loop never changes the weapon. -/
theorem pad_landing_step_weapon (pads : List LandingPad) (h : Helicopter) :
    (pad_landing_step pads h).weapon = h.weapon := by
  unfold pad_landing_step
  split
  · cases hf : List.find? (pad_qualifies h.get_collision_rect h.physics.velocity_x
      h.physics.velocity_y) pads <;> simp only [hf]
  · rfl

/-- The landing-pad loop only ever moves the state to `landed`. -/
theorem pad_landing_step_taking_off (pads : List LandingPad) (h : Helicopter)
    (ht : (pad_landing_step pads h).state = HeliState.taking_off) :
    h.state = HeliState.taking_off := by
  revert ht
  unfold pad_landing_step
  split
  · cases hf : List.find? (pad_qualifies h.get_collision_rect h.physics.velocity_x
      h.physics.velocity_y) pads <;> simp only [hf] <;>
      first
      | exact fun ht => ht
      | exact fun ht => HeliState.noConfusion ht
  · exact fun ht => ht

/-- C6 (amended): a frame can put the helicopter in `taking_off` only
when it started the frame in `landed` (takeoff intent) or already in
`taking_off`; in particular `flying` never transitions directly back to
`taking_off` — returning to it requires first passing through `landed`
(a safe landing). -/
theorem taking_off_only_from_landed (s s' : GameScene) (inp : InputComponent)
    (delta_time : ℚ) (h h' : Helicopter)
    (hstep : s.update inp delta_time = Except.ok s')
    (hh : s.helicopter = some h) (hh' : s'.helicopter = some h')
    (ht : h'.state = HeliState.taking_off) :
    h.state = HeliState.landed ∨ h.state = HeliState.taking_off := by
  rw [GameScene.update] at hstep
  by_cases hgo : s.game_over = true
  · rw [if_pos hgo] at hstep
    cases hstep
    rw [hh] at hh'
    cases hh'
    exact Or.inr ht
  · rw [if_neg hgo, hh] at hstep
    dsimp only at hstep
    cases hupd : h.update inp delta_time with
    | error e =>
      rw [hupd] at hstep
      exact Except.noConfusion hstep
    | ok h1 =>
      rw [hupd] at hstep
      dsimp only at hstep
      cases hwc : world_check_collision s.walls
          (pad_landing_step s.landing_pads h1).get_collision_rect with
      | none =>
        rw [hwc] at hstep
        dsimp only at hstep
        cases hstep
        simp only [Option.some.injEq] at hh'
        have hstate : h'.state = (pad_landing_step s.landing_pads h1).state := by
          rw [← hh']
        rw [hstate] at ht
        exact helicopter_update_taking_off_source h h1 inp delta_time hupd
          (pad_landing_step_taking_off s.landing_pads h1 ht)
      | some wall =>
        rw [hwc] at hstep
        dsimp only at hstep
        cases hhc : handle_collision wall.get_rect
            (pad_landing_step s.landing_pads h1).get_collision_rect
            (pad_landing_step s.landing_pads h1).physics.velocity_x
            (pad_landing_step s.landing_pads h1).physics.velocity_y with
        | destroyed =>
          rw [hhc] at hstep
          dsimp only at hstep
          cases hstep
          exact Option.noConfusion hh'
        | landedOn new_y =>
          rw [hhc] at hstep
          dsimp only at hstep
          cases hstep
          simp only [Option.some.injEq] at hh'
          have hstate : h'.state = HeliState.landed := by
            rw [← hh']
          rw [hstate] at ht
          exact HeliState.noConfusion ht

/-- Input with only the takeoff (up) intent pressed. -/
def c6UpInput : InputComponent := ⟨true, false, false, false, false⟩

/-- A landed helicopter used as C6 witness. -/
def c6WHeli : Helicopter :=
  ⟨100, 102, ⟨0, 0, 60, 0, 0⟩, HeliState.landed, 200, false, ⟨[], 1/5, 1/5⟩⟩

/-- The same helicopter one frame later: taking off with the -25 kick. -/
def c6WHeliNext : Helicopter :=
  ⟨100, 102, ⟨0, -25, 60, 0, 0⟩, HeliState.taking_off, 200, false, ⟨[], 1/5, 1/5⟩⟩

/-- C6 witness scene before the frame. -/
def c6WScene : GameScene :=
  { helicopter := some c6WHeli, walls := [], landing_pads := [], game_over := false }

/-- C6 witness scene after the frame. -/
def c6WSceneNext : GameScene :=
  { helicopter := some c6WHeliNext, walls := [], landing_pads := [], game_over := false }

/-- Witness for C6: the amended theorem applied to the concrete frame in
which the landed helicopter starts taking off. -/
theorem taking_off_only_from_landed_witness :
    c6WHeli.state = HeliState.landed ∨ c6WHeli.state = HeliState.taking_off :=
  taking_off_only_from_landed c6WScene c6WSceneNext c6UpInput 1 c6WHeli c6WHeliNext
    rfl rfl rfl rfl

/-- Input with no intents pressed. -/
def c6NoInput : InputComponent := ⟨false, false, false, false, false⟩

/-- The landing pad of the C6 counterexample trace. -/
def c6Pad : LandingPad := ⟨100, 117, 40, 10⟩

/-- Frame 0 of the C6 trace: flying just above the pad, descending at
40 units/s. -/
def c6Heli : Helicopter :=
  ⟨100, 94, ⟨0, 40, 60, 0, 0⟩, HeliState.flying, 200, false, ⟨[], 1/5, 1/5⟩⟩

/-- The helicopter after `Helicopter.update` in frame 1: gravity applied,
position integrated. -/
def c6Heli1 : Helicopter :=
  ⟨100, 493/5, ⟨0, 46, 60, 0, 0⟩, HeliState.flying, 200, false, ⟨[], 1/5, 1/5⟩⟩

/-- The helicopter after the landing-pad loop of frame 1: landed on the
pad with zero velocity. -/
def c6Heli2 : Helicopter :=
  ⟨100, 102, ⟨0, 0, 60, 0, 0⟩, HeliState.landed, 200, false, ⟨[], 1/5, 1/5⟩⟩

/-- The helicopter after frame 2 (takeoff intent): taking off again. -/
def c6Heli3 : Helicopter :=
  ⟨100, 102, ⟨0, -25, 60, 0, 0⟩, HeliState.taking_off, 200, false, ⟨[], 1/5, 1/5⟩⟩

/-- The C6 trace scene at frame 0. -/
def c6Scene : GameScene :=
  { helicopter := some c6Heli, walls := [], landing_pads := [c6Pad], game_over := false }

/-- The C6 trace scene after frame 1 (landed). -/
def c6SceneMid : GameScene :=
  { helicopter := some c6Heli2, walls := [], landing_pads := [c6Pad], game_over := false }

/-- The C6 trace scene after frame 2 (taking off again). -/
def c6SceneEnd : GameScene :=
  { helicopter := some c6Heli3, walls := [], landing_pads := [c6Pad], game_over := false }

/-- Frame 1 of the C6 trace: the flying helicopter lands on the pad. -/
theorem c6_trace_frame_one :
    c6Scene.update c6NoInput (1/10) = Except.ok c6SceneMid := by
  have hupd : c6Heli.update c6NoInput (1/10) = Except.ok c6Heli1 := by
    rw [Helicopter.update.eq_def]
    norm_num [c6Heli, c6NoInput, c6Heli1, heli_move_and_integrate,
      PhysicsComponent.apply_force, PhysicsComponent.update, base_thrust,
      max_speed_x, max_speed_y_up, max_speed_y_down, min_def, max_def]
    all_goals decide
  have hrect1 : c6Heli1.get_collision_rect = ⟨85, 88, 30, 20⟩ := by
    norm_num [Helicopter.get_collision_rect, c6Heli1, mkRect, ratTrunc]
  have hpadrect : c6Pad.get_rect = ⟨80, 112, 40, 10⟩ := by
    norm_num [LandingPad.get_rect, c6Pad, mkRect, ratTrunc]
  have hq : pad_qualifies ⟨85, 88, 30, 20⟩ c6Heli1.physics.velocity_x
      c6Heli1.physics.velocity_y c6Pad = true := by
    simp only [pad_qualifies, hpadrect]
    norm_num [PyRect.left, PyRect.right, PyRect.top, PyRect.bottom, PyRect.centerx,
      c6Heli1]
  have hpad : pad_landing_step [c6Pad] c6Heli1 = c6Heli2 := by
    rw [pad_landing_step, if_pos (show c6Heli1.state = HeliState.flying from rfl)]
    simp only [hrect1]
    simp only [List.find?_cons_of_pos _ hq, hpadrect]
    norm_num [c6Heli1, c6Heli2, PyRect.top]
  rw [GameScene.update]
  rw [if_neg (show ¬(c6Scene.game_over = true) from by
    rw [show c6Scene.game_over = false from rfl]; exact Bool.false_ne_true)]
  rw [show c6Scene.helicopter = some c6Heli from rfl]
  dsimp only
  rw [hupd]
  dsimp only
  rw [show c6Scene.landing_pads = [c6Pad] from rfl, hpad,
    show c6Scene.walls = ([] : List Wall) from rfl]
  rw [show world_check_collision [] c6Heli2.get_collision_rect = none from rfl]
  dsimp only
  rw [show scene_projectile_loop [] c6Heli2.weapon.projectiles =
    (([] : List Projectile), ([] : List Wall)) from rfl]
  rfl

/-- Frame 2 of the C6 trace: the landed helicopter takes off again. -/
theorem c6_trace_frame_two :
    c6SceneMid.update c6UpInput (1/10) = Except.ok c6SceneEnd := rfl

/-- Counterexample to C6: a session trace in which the state is `flying`,
then — after a safe pad landing — `taking_off` again two frames later,
refuting "once Flying is entered, the state never becomes TakingOff
again in that same session". -/
theorem flying_returns_to_taking_off :
    scene_heli_state c6Scene = some HeliState.flying ∧
    (c6Scene.update c6NoInput (1/10)).map scene_heli_state =
      Except.ok (some HeliState.landed) ∧
    ((c6Scene.update c6NoInput (1/10)).bind
        (fun s1 => s1.update c6UpInput (1/10))).map scene_heli_state =
      Except.ok (some HeliState.taking_off) := by
  refine ⟨rfl, ?_, ?_⟩
  · rw [c6_trace_frame_one]
    rfl
  · rw [c6_trace_frame_one]
    show (c6SceneMid.update c6UpInput (1/10)).map scene_heli_state = _
    rw [c6_trace_frame_two]
    rfl

/-- C7 (amended): `GameScene.update` contains no out-of-bounds check: the
game-over flag can only be raised by a wall collision, so in a world with
no walls no frame ever raises it — no matter how far the vehicle's
position lies outside the world extents. -/
theorem no_walls_no_game_over (s s' : GameScene) (inp : InputComponent)
    (delta_time : ℚ) (hw : s.walls = [])
    (hstep : s.update inp delta_time = Except.ok s') :
    s'.game_over = s.game_over := by
  rw [GameScene.update] at hstep
  by_cases hgo : s.game_over = true
  · rw [if_pos hgo] at hstep
    cases hstep
    rfl
  · rw [if_neg hgo] at hstep
    cases hh : s.helicopter with
    | none =>
      rw [hh] at hstep
      dsimp only at hstep
      cases hstep
      rfl
    | some h0 =>
      rw [hh] at hstep
      dsimp only at hstep
      cases hupd : h0.update inp delta_time with
      | error e =>
        rw [hupd] at hstep
        exact Except.noConfusion hstep
      | ok h1 =>
        rw [hupd] at hstep
        dsimp only at hstep
        rw [hw] at hstep
        rw [show ∀ r, world_check_collision [] r = none from fun r => rfl] at hstep
        dsimp only at hstep
        cases hstep
        rfl

/-- Input with no intents pressed (C7). -/
def c7NoInput : InputComponent := ⟨false, false, false, false, false⟩

/-- A landed helicopter for the C7 witness. -/
def c7WHeli : Helicopter :=
  ⟨50, 50, ⟨0, 0, 60, 0, 0⟩, HeliState.landed, 50, false, ⟨[], 1/5, 1/5⟩⟩

/-- The wall-less scene of the C7 witness. -/
def c7WScene : GameScene :=
  { helicopter := some c7WHeli, walls := [], landing_pads := [], game_over := false }

/-- Witness for C7: the amended theorem applied to a concrete wall-less
frame (which maps the scene to itself). -/
theorem no_walls_no_game_over_witness : c7WScene.game_over = c7WScene.game_over :=
  no_walls_no_game_over c7WScene c7WScene c7NoInput 1 rfl rfl

/-- Modelled from the spec: the fixed out-of-bounds margin ("e.g., 100
units"); `GameScene.update` itself contains no out-of-bounds check, so
the margin appears in no code path. -/
def bounds_margin : ℚ := 100

/-- `self.world_width = 3000` in `GameScene.generate_world`. -/
def world_width : ℚ := 3000

/-- `self.world_height = 2000` in `GameScene.generate_world`. -/
def world_height : ℚ := 2000

/-- The helicopter of the C7 counterexample: flying far beyond the world
extents on the left and top (position -1000, -1000 against extents
3000 × 2000 with margin 100). -/
def c7Heli : Helicopter :=
  ⟨-1000, -1000, ⟨0, 0, 60, 0, 0⟩, HeliState.flying, 0, false, ⟨[], 1/5, 1/5⟩⟩

/-- The C7 counterexample scene. -/
def c7Scene : GameScene :=
  { helicopter := some c7Heli, walls := [], landing_pads := [], game_over := false }

/-- The C7 helicopter one frame later: still flying, merely pulled by
gravity. -/
def c7HeliNext : Helicopter :=
  ⟨-1000, -4997/5, ⟨0, 6, 60, 0, 0⟩, HeliState.flying, 0, false, ⟨[], 1/5, 1/5⟩⟩

/-- The C7 counterexample scene one frame later. -/
def c7SceneNext : GameScene :=
  { helicopter := some c7HeliNext, walls := [], landing_pads := [], game_over := false }

/-- Counterexample to C7: the vehicle's position exceeds the world
extents by far more than the margin on the left and top sides, yet the
frame neither raises game over nor destroys the helicopter — the claimed
out-of-bounds check does not exist. -/
theorem out_of_bounds_not_destroyed :
    c7Heli.x < 0 - bounds_margin ∧
    c7Heli.y < 0 - bounds_margin ∧
    c7Scene.update c7NoInput (1/10) = Except.ok c7SceneNext ∧
    c7SceneNext.game_over = false ∧
    scene_heli_state c7SceneNext = some HeliState.flying := by
  refine ⟨by norm_num [c7Heli, bounds_margin], by norm_num [c7Heli, bounds_margin],
    ?_, rfl, rfl⟩
  have hupd : c7Heli.update c7NoInput (1/10) = Except.ok c7HeliNext := by
    rw [Helicopter.update.eq_def]
    norm_num [c7Heli, c7NoInput, c7HeliNext, heli_move_and_integrate,
      PhysicsComponent.apply_force, PhysicsComponent.update, base_thrust,
      max_speed_x, max_speed_y_up, max_speed_y_down, min_def, max_def]
    all_goals decide
  rw [GameScene.update]
  rw [if_neg (show ¬(c7Scene.game_over = true) from by
    rw [show c7Scene.game_over = false from rfl]; exact Bool.false_ne_true)]
  rw [show c7Scene.helicopter = some c7Heli from rfl]
  dsimp only
  rw [hupd]
  dsimp only
  rw [show c7Scene.landing_pads = ([] : List LandingPad) from rfl,
    show pad_landing_step [] c7HeliNext = c7HeliNext from rfl,
    show c7Scene.walls = ([] : List Wall) from rfl,
    show world_check_collision [] c7HeliNext.get_collision_rect = none from rfl]
  dsimp only
  rfl

/-- A hit reported by the scene projectile wall-scan means some wall in
the scanned list collides with the projectile rect. -/
theorem scene_proj_hit_hit_mem (damage : ℚ) (rect : PyRect) (walls : List Wall)
    (hhit : (scene_proj_hit damage rect walls).2 = true) :
    ∃ w ∈ walls, w.get_rect.colliderect rect = true := by
  induction walls with
  | nil => simp [scene_proj_hit] at hhit
  | cons w ws ih =>
    rw [scene_proj_hit] at hhit
    by_cases hc : w.get_rect.colliderect rect = true
    · exact ⟨w, List.mem_cons_self w ws, hc⟩
    · rw [if_neg hc] at hhit
      dsimp only at hhit
      obtain ⟨w', hmem, hcol⟩ := ih hhit
      exact ⟨w', List.mem_cons_of_mem w hmem, hcol⟩

/-- Every wall surviving the scene projectile wall-scan has the rect of
some wall of the input list (damage changes health, never geometry). -/
theorem scene_proj_hit_rect_mem (damage : ℚ) (rect : PyRect) (walls : List Wall) :
    ∀ w' ∈ (scene_proj_hit damage rect walls).1,
      ∃ w ∈ walls, w'.get_rect = w.get_rect := by
  induction walls with
  | nil =>
    intro w' hw'
    simp [scene_proj_hit] at hw'
  | cons w ws ih =>
    intro w' hw'
    rw [scene_proj_hit] at hw'
    by_cases hc : w.get_rect.colliderect rect = true
    · rw [if_pos hc] at hw'
      by_cases hd : w.destructible = true
      · rw [if_pos hd] at hw'
        dsimp only at hw'
        by_cases hz : ({ w with health := w.health - damage } : Wall).health ≤ 0
        · rw [if_pos hz] at hw'
          exact ⟨w', List.mem_cons_of_mem w hw', rfl⟩
        · rw [if_neg hz] at hw'
          rcases List.mem_cons.mp hw' with hw1 | hw1
          · exact ⟨w, List.mem_cons_self w ws, by subst hw1; rfl⟩
          · exact ⟨w', List.mem_cons_of_mem w hw1, rfl⟩
      · rw [if_neg hd] at hw'
        dsimp only at hw'
        exact ⟨w', hw', rfl⟩
    · rw [if_neg hc] at hw'
      dsimp only at hw'
      rcases List.mem_cons.mp hw' with hw1 | hw1
      · exact ⟨w, List.mem_cons_self w ws, by subst hw1; rfl⟩
      · obtain ⟨w0, hw0, heq⟩ := ih w' hw1
        exact ⟨w0, List.mem_cons_of_mem w hw0, heq⟩

/-- The scene projectile loop only ever removes projectiles: the
survivors are a sublist of the input, each one untouched. -/
theorem scene_projectile_loop_sublist (walls : List Wall) (ps : List Projectile) :
    (scene_projectile_loop walls ps).1.Sublist ps := by
  induction ps generalizing walls with
  | nil => simp [scene_projectile_loop]
  | cons p ps ih =>
    rw [scene_projectile_loop]
    dsimp only
    by_cases hhit : (scene_proj_hit p.damage p.get_rect walls).2 = true
    · rw [if_pos hhit]
      exact List.Sublist.cons p (ih _)
    · rw [if_neg hhit]
      exact List.Sublist.cons₂ p (ih _)

/-- A projectile removed by the scene projectile loop was hit: some wall
of the input list collides with its rect. -/
theorem scene_projectile_loop_removed (walls : List Wall) (ps : List Projectile)
    (p : Projectile) (hp : p ∈ ps) (hout : p ∉ (scene_projectile_loop walls ps).1) :
    ∃ w ∈ walls, w.get_rect.colliderect p.get_rect = true := by
  induction ps generalizing walls with
  | nil => cases hp
  | cons q ps ih =>
    rw [scene_projectile_loop] at hout
    dsimp only at hout
    by_cases hhit : (scene_proj_hit q.damage q.get_rect walls).2 = true
    · rw [if_pos hhit] at hout
      rcases List.mem_cons.mp hp with hpq | hp'
      · subst hpq
        exact scene_proj_hit_hit_mem _ _ _ hhit
      · obtain ⟨w', hw', hcol⟩ := ih _ hp' hout
        obtain ⟨w, hw, heq⟩ := scene_proj_hit_rect_mem _ _ _ w' hw'
        exact ⟨w, hw, by rw [← heq]; exact hcol⟩
    · rw [if_neg hhit] at hout
      rcases List.mem_cons.mp hp with hpq | hp'
      · exact absurd (hpq ▸ List.mem_cons_self q _) hout
      · have hout' : p ∉ (scene_projectile_loop
            (scene_proj_hit q.damage q.get_rect walls).1 ps).1 :=
          fun hmem => hout (List.mem_cons_of_mem q hmem)
        obtain ⟨w', hw', hcol⟩ := ih _ hp' hout'
        obtain ⟨w, hw, heq⟩ := scene_proj_hit_rect_mem _ _ _ w' hw'
        exact ⟨w, hw, by rw [← heq]; exact hcol⟩

/-- C10: the frame loop of `GameScene.update` never invokes the weapon's
update hook: across a successful frame the weapon's cooldown timer is
unchanged, every surviving projectile is literally unchanged (no
movement, no aging, in order — a sublist of the previous frame's list),
and a projectile is removed only when some wall's rect collides with its
(stationary) rect — never by lifetime expiry. -/
theorem frame_keeps_weapon_and_projectiles (s s' : GameScene) (inp : InputComponent)
    (delta_time : ℚ) (h h' : Helicopter)
    (hstep : s.update inp delta_time = Except.ok s')
    (hh : s.helicopter = some h) (hh' : s'.helicopter = some h') :
    h'.weapon.time_since_last_shot = h.weapon.time_since_last_shot ∧
    h'.weapon.cooldown = h.weapon.cooldown ∧
    h'.weapon.projectiles.Sublist h.weapon.projectiles ∧
    ∀ p ∈ h.weapon.projectiles, p ∉ h'.weapon.projectiles →
      ∃ w ∈ s.walls, w.get_rect.colliderect p.get_rect = true := by
  rw [GameScene.update] at hstep
  by_cases hgo : s.game_over = true
  · rw [if_pos hgo] at hstep
    cases hstep
    rw [hh] at hh'
    cases hh'
    exact ⟨rfl, rfl, List.Sublist.refl _, fun p hin hni => absurd hin hni⟩
  · rw [if_neg hgo, hh] at hstep
    dsimp only at hstep
    cases hupd : h.update inp delta_time with
    | error e =>
      rw [hupd] at hstep
      exact Except.noConfusion hstep
    | ok h1 =>
      rw [hupd] at hstep
      dsimp only at hstep
      have hw2 : (pad_landing_step s.landing_pads h1).weapon = h.weapon := by
        rw [pad_landing_step_weapon]
        exact helicopter_update_ok_weapon h h1 inp delta_time hupd
      cases hwc : world_check_collision s.walls
          (pad_landing_step s.landing_pads h1).get_collision_rect with
      | none =>
        rw [hwc] at hstep
        dsimp only at hstep
        cases hstep
        simp only [Option.some.injEq] at hh'
        subst hh'
        dsimp only
        rw [hw2]
        refine ⟨rfl, rfl, scene_projectile_loop_sublist _ _, ?_⟩
        exact fun p hin hni => scene_projectile_loop_removed _ _ p hin hni
      | some wall =>
        rw [hwc] at hstep
        dsimp only at hstep
        cases hhc : handle_collision wall.get_rect
            (pad_landing_step s.landing_pads h1).get_collision_rect
            (pad_landing_step s.landing_pads h1).physics.velocity_x
            (pad_landing_step s.landing_pads h1).physics.velocity_y with
        | destroyed =>
          rw [hhc] at hstep
          dsimp only at hstep
          cases hstep
          exact Option.noConfusion hh'
        | landedOn new_y =>
          rw [hhc] at hstep
          dsimp only at hstep
          cases hstep
          simp only [Option.some.injEq] at hh'
          subst hh'
          dsimp only
          rw [hw2]
          refine ⟨rfl, rfl, scene_projectile_loop_sublist _ _, ?_⟩
          exact fun p hin hni => scene_projectile_loop_removed _ _ p hin hni

/-- Input with no intents pressed (C10). -/
def c10NoInput : InputComponent := ⟨false, false, false, false, false⟩

/-- A stationary live projectile for the C10 witness. -/
def c10Proj : Projectile := ⟨0, 0, 0, 0, 3, 10, 2, 0⟩

/-- A landed helicopter whose weapon holds one live projectile. -/
def c10WHeli : Helicopter :=
  ⟨50, 50, ⟨0, 0, 60, 0, 0⟩, HeliState.landed, 50, false, ⟨[c10Proj], 1/5, 1/5⟩⟩

/-- The wall-less scene of the C10 witness. -/
def c10WScene : GameScene :=
  { helicopter := some c10WHeli, walls := [], landing_pads := [], game_over := false }

/-- Witness for C10: a concrete wall-less frame keeps the weapon timer
and the single projectile untouched. -/
theorem frame_keeps_weapon_and_projectiles_witness :
    c10WHeli.weapon.time_since_last_shot = c10WHeli.weapon.time_since_last_shot ∧
    c10WHeli.weapon.cooldown = c10WHeli.weapon.cooldown ∧
    c10WHeli.weapon.projectiles.Sublist c10WHeli.weapon.projectiles ∧
    ∀ p ∈ c10WHeli.weapon.projectiles, p ∉ c10WHeli.weapon.projectiles →
      ∃ w ∈ c10WScene.walls, w.get_rect.colliderect p.get_rect = true :=
  frame_keeps_weapon_and_projectiles c10WScene c10WScene c10NoInput 1
    c10WHeli c10WHeli rfl rfl rfl
